import Mathlib

/-!
Shallow embedding of the OSU bus trip-planning engine (HackOHI-O repository).

The repository contains two near-duplicate versions of the routing module:

* `src/BackEnd/busRouting.js` — uses a 400 m radius, an `isValidDirection`
  topology check, and a distance/average-speed fallback inside
  `estimateBusTravelTime`; candidates are never discarded for a
  non-positive ride time.
* the `busRouting.js` copy bundled with `aggregateRouteInfo.js`
  (`src/unnamed/part_005`) — uses a 750 m radius, no topology check, a
  record-valued `estimateBusTravelTime` with loop-back handling and no
  fallback, and discards candidates whose ride time is `<= 0`.

Shared structures and functions (identical in both versions) are defined
once at top level; the version-specific functions live in the `BackEnd`
and `AggBusRouting` namespaces.

Times are modelled as rationals (JS numbers; the float rounding of the
actual arithmetic is immaterial to every property proved here).  The
haversine great-circle distance is trigonometric and therefore not
representable as an executable rational function; every definition that
needs it takes an explicit distance function `hav` as a parameter, in the
same way the JS functions close over `haversineDistance`.  Absent
(`undefined`) JS values are modelled with `Option`; JS falsiness of `0`
is modelled explicitly where the code relies on it.
-/

/-- A live arrival prediction of a vehicle for one stop
(`{stopId, timeToArrivalInSeconds, predictionTime, predictionCountdown,
isDelayed}`).  `timeToArrivalInSeconds` may be absent (`undefined`). -/
structure Prediction where
  stopId : String
  timeToArrivalInSeconds : Option ℚ
  predictionTime : String
  predictionCountdown : String
  isDelayed : Bool
deriving Repr, DecidableEq

/-- A tracked vehicle with its prediction list. -/
structure Vehicle where
  id : String
  predictions : List Prediction
deriving Repr, DecidableEq

/-- A stop on a route.  Stops coming from the network snapshot always carry
numeric coordinates. -/
structure Stop where
  id : String
  name : String
  latitude : ℚ
  longitude : ℚ
deriving Repr, DecidableEq

/-- A route: ordered stop sequence, circular flag, active vehicles. -/
structure Route where
  id : String
  name : String
  color : String
  stops : List Stop
  isCircular : Bool
  vehicles : List Vehicle
deriving Repr, DecidableEq

/-- A user-supplied geographic point (`{latitude, longitude}`); either
field may be absent, mirroring a partially populated JS object. -/
structure Point where
  latitude : Option ℚ
  longitude : Option ℚ
deriving Repr, DecidableEq

/-- The type of the abstracted `haversineDistance(lat1, lon1, lat2, lon2)`
function: four (possibly absent) coordinates to a distance in meters. -/
abbrev DistFn := Option ℚ → Option ℚ → Option ℚ → Option ℚ → ℚ

/-- JS falsiness of an optional numeric field: `undefined`/missing and `0`
are both falsy (`!point.latitude`). -/
def falsyNum : Option ℚ → Bool
  | none => true
  | some q => q = 0

/-- A point that fails `calculateWalkTime`'s validity guard: the object is
absent, or one of its coordinate fields is absent or exactly `0`. -/
def invalidPoint : Option Point → Bool
  | none => true
  | some p => falsyNum p.latitude || falsyNum p.longitude

/-- `calculateWalkTime(point1, point2)` from `busRouting.js` (identical in
both versions): returns `0` when either point fails the falsiness guard,
otherwise distance divided by the fixed 1.1 m/s walking speed, in
minutes. -/
def calculateWalkTime (hav : DistFn) (point1 point2 : Option Point) : ℚ :=
  if invalidPoint point1 || invalidPoint point2 then 0
  else
    match point1, point2 with
    | some p1, some p2 => hav p1.latitude p1.longitude p2.latitude p2.longitude / 1.1 / 60
    | _, _ => 0

/-- A JS number that may be the `Infinity` sentinel. -/
inductive JsNum where
  | num (q : ℚ)
  | inf
deriving Repr, DecidableEq

/-- `distanceMeters(a, b)` from the search-drawer UI module
(`src/unnamed/part_000`): returns `Infinity` when either input object is
absent, otherwise the haversine distance. -/
def distanceMeters (hav : DistFn) (a b : Option Point) : JsNum :=
  match a, b with
  | some pa, some pb => .num (hav pa.latitude pa.longitude pb.latitude pb.longitude)
  | _, _ => .inf

/-- A nearby-stop record produced by `findNearbyStops`. -/
structure NearbyStop where
  stopId : String
  stopName : String
  latitude : ℚ
  longitude : ℚ
  routeId : String
  routeName : String
  routeColor : String
  distanceMeters : ℚ
  walkTimeMinutes : ℚ
deriving Repr, DecidableEq

/-- `findNearbyStops(location, routes, maxWalkMeters)` (identical logic in
both versions; only the default radius differs and the callers pass it
explicitly): every stop of every route within the radius, annotated with
walk time at 1.1 m/s. -/
def findNearbyStops (hav : DistFn) (location : Point) (routes : List Route)
    (maxWalkMeters : ℚ) : List NearbyStop :=
  routes.flatMap fun route =>
    route.stops.filterMap fun stop =>
      let distance := hav location.latitude location.longitude (some stop.latitude) (some stop.longitude)
      if distance ≤ maxWalkMeters then
        some { stopId := stop.id, stopName := stop.name,
               latitude := stop.latitude, longitude := stop.longitude,
               routeId := route.id, routeName := route.name, routeColor := route.color,
               distanceMeters := distance, walkTimeMinutes := distance / 1.1 / 60 }
      else none

/-- The record returned by `findNextBus` for the chosen vehicle. -/
structure BusInfo where
  vehicleId : String
  eta : ℚ
  waitTime : ℚ
  predictionTime : String
  countdown : String
  isDelayed : Bool
  prediction : Prediction
  vehicle : Vehicle
deriving Repr, DecidableEq

/-- One iteration of the `route.vehicles.forEach` loop in `findNextBus`:
the accumulator holds `(closestBus, shortestWait)`, with `none` standing
for the initial `Infinity` wait. -/
def nextBusStep (stopId : String) (minArrivalTime : ℚ)
    (acc : Option BusInfo × Option ℚ) (vehicle : Vehicle) :
    Option BusInfo × Option ℚ :=
  match vehicle.predictions.find? (fun p => p.stopId = stopId) with
  | none => acc
  | some prediction =>
    match prediction.timeToArrivalInSeconds with
    | none => acc
    | some secs =>
      let busArrivalMinutes := secs / 60
      if decide (minArrivalTime ≤ busArrivalMinutes) &&
          (match acc.2 with | none => true | some w => decide (busArrivalMinutes < w)) then
        (some { vehicleId := vehicle.id, eta := busArrivalMinutes,
                waitTime := busArrivalMinutes - minArrivalTime,
                predictionTime := prediction.predictionTime,
                countdown := prediction.predictionCountdown,
                isDelayed := prediction.isDelayed,
                prediction := prediction, vehicle := vehicle },
         some busArrivalMinutes)
      else acc

/-- `findNextBus(route, stopId, minArrivalTime)` (identical in both
versions): scans each vehicle's first prediction for `stopId` and keeps
the qualifying one with the smallest arrival time. -/
def findNextBus (route : Route) (stopId : String) (minArrivalTime : ℚ) : Option BusInfo :=
  if route.vehicles.isEmpty then none
  else (route.vehicles.foldl (nextBusStep stopId minArrivalTime) (none, none)).1

/-- The first prediction of a vehicle's list whose arrival minutes are
defined, match `stopId`, and are at least `minArrivalTime`; what
`findNextBus` actually considers per vehicle:
only the first prediction whose `stopId` matches. -/
def vehicleArrival (stopId : String) (v : Vehicle) : Option ℚ :=
  match v.predictions.find? (fun p => p.stopId = stopId) with
  | some p => p.timeToArrivalInSeconds.map (· / 60)
  | none => none

/-- The arrival (in minutes) that makes a vehicle boardable at `stopId`
for a rider arriving at minute `t`, if any. -/
def qualArrival (stopId : String) (t : ℚ) (v : Vehicle) : Option ℚ :=
  match vehicleArrival stopId v with
  | some m => if t ≤ m then some m else none
  | none => none

/-- The `{valid, stopsBetween}` record returned by `isValidDirection`. -/
structure DirectionCheck where
  valid : Bool
  stopsBetween : Nat
deriving Repr, DecidableEq

/-- The `stopPositions` map of `isValidDirection`
(`src/BackEnd/busRouting.js`): each stop id is assigned its index by a
`forEach` over the stop list, so a duplicated id resolves to its *last*
index. -/
def stopPositions (stops : List Stop) (sid : String) : Option Nat :=
  stops.enum.foldl (fun acc p => if p.2.id = sid then some p.1 else acc) none

/-- `isValidDirection(route, startStopId, endStopId)` from
`src/BackEnd/busRouting.js`: forward trips are valid with the index
difference; circular routes (explicit flag, or more than two stops with
identical first and last ids) additionally allow wraparound. -/
def isValidDirection (route : Route) (startStopId endStopId : String) : DirectionCheck :=
  match stopPositions route.stops startStopId, stopPositions route.stops endStopId with
  | some startIndex, some endIndex =>
    let totalStops := route.stops.length
    if startIndex = endIndex then ⟨false, 0⟩
    else
      let isCircular := route.isCircular ||
        (decide (2 < totalStops) &&
         decide ((route.stops.head?.map Stop.id) = (route.stops.getLast?.map Stop.id)))
      if startIndex < endIndex then ⟨true, endIndex - startIndex⟩
      else if isCircular && decide (endIndex < startIndex) then
        ⟨true, totalStops - startIndex + endIndex⟩
      else ⟨false, 0⟩
  | _, _ => ⟨false, 0⟩

/-- Rendering of the direction rule exactly as the specification states
it: missing id or equal indices invalid; `endIndex > startIndex` valid
with the difference; circular route (explicit flag, or first and last
stop ids identical, with no minimum length) with `endIndex < startIndex`
valid with wraparound; all other cases invalid. -/
def checkDirectionSpec (route : Route) (startStopId endStopId : String) : DirectionCheck :=
  match stopPositions route.stops startStopId, stopPositions route.stops endStopId with
  | some startIndex, some endIndex =>
    if startIndex = endIndex then ⟨false, 0⟩
    else if startIndex < endIndex then ⟨true, endIndex - startIndex⟩
    else if route.isCircular ||
        decide ((route.stops.head?.map Stop.id) = (route.stops.getLast?.map Stop.id)) then
      ⟨true, route.stops.length - startIndex + endIndex⟩
    else ⟨false, 0⟩
  | _, _ => ⟨false, 0⟩

/-- First prediction in the list for the given stop id (the
`predictions.find(p => p.stopId === startStopId)` step). -/
def firstPredFor (preds : List Prediction) (sid : String) : Option Prediction :=
  preds.find? (fun p => p.stopId = sid)

/-- The loop-back bound of the newer `estimateBusTravelTime`: arrival time
of the next occurrence of the start stop strictly after `startTime`
(`none` models the `Infinity` default). -/
def loopBackBound (preds : List Prediction) (sid : String) (startTime : ℚ) : Option ℚ :=
  (preds.find? fun p => p.stopId = sid &&
      (match p.timeToArrivalInSeconds with
       | some t => decide (startTime < t)
       | none => false)).bind Prediction.timeToArrivalInSeconds

/-- The qualifying end-stop prediction of the newer
`estimateBusTravelTime`: first prediction for the end stop with a defined
arrival strictly after `startTime` and strictly before the loop-back
bound. -/
def findEndPred (preds : List Prediction) (sid : String) (startTime : ℚ)
    (loopBack : Option ℚ) : Option Prediction :=
  preds.find? fun p => p.stopId = sid &&
    (match p.timeToArrivalInSeconds with
     | some t => decide (startTime < t) &&
         (match loopBack with | none => true | some lb => decide (t < lb))
     | none => false)

/-- The `{travelTime, stopsBetween}` record of the newer
`estimateBusTravelTime`. -/
structure BusEstimate where
  travelTime : ℚ
  stopsBetween : Nat
deriving Repr, DecidableEq

/-- The distinct stop ids with a predicted arrival in the half-open
window `(startTime, endTime]` (the `new Set(...).size` computation). -/
def stopsInWindow (preds : List Prediction) (startTime endTime : ℚ) : List String :=
  ((preds.filter fun p =>
      match p.timeToArrivalInSeconds with
      | some t => decide (startTime < t) && decide (t ≤ endTime)
      | none => false).map Prediction.stopId).dedup

namespace AggBusRouting

/-- `estimateBusTravelTime(route, startStopId, endStopId, busInfo)` from
the `busRouting.js` copy bundled with `aggregateRouteInfo.js`
(`src/unnamed/part_005`): live-data only, `{travelTime: 0, stopsBetween:
0}` whenever no qualifying start/end prediction exists; no distance or
speed fallback (the `route` argument is unused). -/
def estimateBusTravelTime (_route : Route) (startStopId endStopId : String)
    (busInfo : Option BusInfo) : BusEstimate :=
  match busInfo with
  | none => ⟨0, 0⟩
  | some info =>
    let predictions := info.vehicle.predictions
    match firstPredFor predictions startStopId with
    | none => ⟨0, 0⟩
    | some startPred =>
      match startPred.timeToArrivalInSeconds with
      | none => ⟨0, 0⟩
      | some startTime =>
        match findEndPred predictions endStopId startTime
            (loopBackBound predictions startStopId startTime) with
        | none => ⟨0, 0⟩
        | some endPred =>
          match endPred.timeToArrivalInSeconds with
          | none => ⟨0, 0⟩
          | some endTime =>
            ⟨(endTime - startTime) / 60, (stopsInWindow predictions startTime endTime).length⟩

end AggBusRouting

namespace BackEnd

/-- `estimateBusTravelTime(route, startStopId, endStopId, busInfo)` from
`src/BackEnd/busRouting.js`: difference of the first start/end
predictions when positive, otherwise a fallback of stop-to-stop distance
at 6.7 m/s, or a flat 10 minutes when either stop id is not on the
route. -/
def estimateBusTravelTime (hav : DistFn) (route : Route)
    (startStopId endStopId : String) (busInfo : Option BusInfo) : ℚ :=
  let live : Option ℚ :=
    match busInfo with
    | some info =>
      match firstPredFor info.vehicle.predictions startStopId,
            firstPredFor info.vehicle.predictions endStopId with
      | some startPred, some endPred =>
        match startPred.timeToArrivalInSeconds, endPred.timeToArrivalInSeconds with
        | some ts, some te =>
          if 0 < te - ts then some ((te - ts) / 60) else none
        | _, _ => none
      | _, _ => none
    | none => none
  match live with
  | some t => t
  | none =>
    match route.stops.find? (fun s => s.id = startStopId),
          route.stops.find? (fun s => s.id = endStopId) with
    | some startStop, some endStop =>
      hav (some startStop.latitude) (some startStop.longitude)
          (some endStop.latitude) (some endStop.longitude) / 6.7 / 60
    | _, _ => 10

end BackEnd

/-- The embedded `startStop`/`endStop` sub-object of a candidate trip. -/
structure StopRef where
  id : String
  name : String
  latitude : ℚ
  longitude : ℚ
deriving Repr, DecidableEq

/-- One candidate trip pushed onto `possibleTrips` by `findBestRoute`
(identical field set in both versions). -/
structure TripCand where
  routeId : String
  routeName : String
  routeColor : String
  startStop : StopRef
  endStop : StopRef
  busId : String
  busETA : ℚ
  busCountdown : String
  isDelayed : Bool
  arrivalTime : String
  walkToStopTime : ℚ
  busWaitTime : ℚ
  busTravelTime : ℚ
  walkFromStopTime : ℚ
  totalTime : ℚ
  ETA : String
  stopsBetween : Nat
deriving Repr, DecidableEq

/-- The JS comparator passed to `possibleTrips.sort`: the signed total-time
difference, replaced by the signed walk-time difference when the totals
are within the 1-minute similarity threshold. -/
def tripCompare (a b : TripCand) : ℚ :=
  let timeDiff := a.totalTime - b.totalTime
  if |timeDiff| ≤ 1 then a.walkToStopTime - b.walkToStopTime
  else timeDiff

/-- `a` sorts no later than `b` under the comparator. -/
def tripLe (a b : TripCand) : Bool :=
  decide (tripCompare a b ≤ 0)

/-- Stable insertion used to model `Array.prototype.sort` (which is
specified to be stable): an element is placed before the first existing
element it compares `<= 0` against. -/
def insertTrip (x : TripCand) : List TripCand → List TripCand
  | [] => [x]
  | y :: ys => if tripLe x y then x :: y :: ys else y :: insertTrip x ys

/-- Stable sort of the candidate list by the JS comparator. -/
def sortTrips (l : List TripCand) : List TripCand :=
  l.foldr insertTrip []

/-- `calculateETA(totalTime)`: wall-clock arrival stamp `"H:M"` computed
from the current clock reading (`Date.now() / 1000`, passed here
explicitly as `now`); `getHours`/`getMinutes` are modelled in UTC, and
hours above 12 are reduced by 12 as in the source. -/
def calculateETA (now totalTime : ℚ) : String :=
  let etaInSeconds := now + totalTime * 60
  let totalMinutes : ℤ := ⌊etaInSeconds / 60⌋
  let minutes : ℤ := totalMinutes % 60
  let hours0 : ℤ := (totalMinutes / 60) % 24
  let hours : ℤ := if 12 < hours0 then hours0 - 12 else hours0
  toString hours ++ ":" ++ toString minutes

/-- The result object of `findBestRoute`.  The JS function returns ad-hoc
objects whose field sets differ per branch; fields absent in a branch are
`none` / `[]` here. -/
structure BestRoute where
  recommendation : String
  reason : Option String
  directWalkTime : Option ℚ
  routeId : Option String
  routeName : Option String
  routeColor : Option String
  trip : Option TripCand
  fromStop : Option String
  toStop : Option String
  waitTime : Option ℚ
  busTime : Option ℚ
  alternativeTrips : List TripCand
  nearbyStartStops : Option (List NearbyStop)
  nearbyEndStops : Option (List NearbyStop)
deriving Repr, DecidableEq

/-- The all-`none` result skeleton. -/
def emptyResult : BestRoute :=
  { recommendation := "", reason := none, directWalkTime := none,
    routeId := none, routeName := none, routeColor := none,
    trip := none, fromStop := none, toStop := none,
    waitTime := none, busTime := none, alternativeTrips := [],
    nearbyStartStops := none, nearbyEndStops := none }

/-- The tail of `findBestRoute` shared verbatim by both versions: the
no-service error object (which does **not** carry `directWalkTime`), or
the sorted best trip with up to two alternatives. -/
def assembleResult (directWalkTime : ℚ) (startStops endStops : List NearbyStop)
    (trips : List TripCand) : BestRoute :=
  if trips.isEmpty then
    { emptyResult with
      recommendation := "error",
      reason := some "No buses running along your route",
      nearbyStartStops := some startStops,
      nearbyEndStops := some endStops }
  else
    match sortTrips trips with
    | [] =>
      { emptyResult with
        recommendation := "error",
        reason := some "No buses running along your route",
        nearbyStartStops := some startStops,
        nearbyEndStops := some endStops }
    | bestTrip :: rest =>
      { emptyResult with
        recommendation := "bus",
        routeId := some bestTrip.routeId,
        routeName := some bestTrip.routeName,
        routeColor := some bestTrip.routeColor,
        trip := some bestTrip,
        fromStop := some bestTrip.startStop.name,
        toStop := some bestTrip.endStop.name,
        waitTime := some bestTrip.busWaitTime,
        busTime := some bestTrip.busTravelTime,
        alternativeTrips := rest.take 2,
        directWalkTime := some directWalkTime }

namespace AggBusRouting

/-- The body of the inner `for (const endStop of endStops)` loop of the
newer `findBestRoute`: `none` exactly when the candidate pair is skipped
by one of the `continue` statements (different route, same stop, no
boardable bus, or ride-time estimate `<= 0`). -/
def tripFor (hav : DistFn) (now : ℚ) (destinationLocation : Point) (route : Route)
    (startStop endStop : NearbyStop) : Option TripCand :=
  if endStop.routeId ≠ startStop.routeId then none
  else if startStop.stopId = endStop.stopId then none
  else
    match findNextBus route startStop.stopId startStop.walkTimeMinutes with
    | none => none
    | some nextBus =>
      let busEstimate := estimateBusTravelTime route startStop.stopId endStop.stopId (some nextBus)
      if busEstimate.travelTime ≤ 0 then none
      else
        let walkFromStop := calculateWalkTime hav
          (some ⟨some endStop.latitude, some endStop.longitude⟩)
          (some destinationLocation)
        let totalTime := startStop.walkTimeMinutes + nextBus.waitTime +
          busEstimate.travelTime + walkFromStop
        some { routeId := route.id, routeName := route.name, routeColor := route.color,
               startStop := ⟨startStop.stopId, startStop.stopName,
                             startStop.latitude, startStop.longitude⟩,
               endStop := ⟨endStop.stopId, endStop.stopName,
                           endStop.latitude, endStop.longitude⟩,
               busId := nextBus.vehicleId, busETA := nextBus.eta,
               busCountdown := nextBus.countdown, isDelayed := nextBus.isDelayed,
               arrivalTime := nextBus.predictionTime,
               walkToStopTime := startStop.walkTimeMinutes,
               busWaitTime := nextBus.waitTime,
               busTravelTime := busEstimate.travelTime,
               walkFromStopTime := walkFromStop,
               totalTime := totalTime,
               ETA := calculateETA now totalTime,
               stopsBetween := busEstimate.stopsBetween }

/-- The `possibleTrips` list accumulated by the nested loops of the newer
`findBestRoute`. -/
def possibleTrips (hav : DistFn) (now : ℚ) (destinationLocation : Point)
    (routes : List Route) (startStops endStops : List NearbyStop) : List TripCand :=
  startStops.flatMap fun startStop =>
    match routes.find? (fun r => r.id = startStop.routeId) with
    | none => []
    | some route => endStops.filterMap (tripFor hav now destinationLocation route startStop)

/-- `findBestRoute(userLocation, destinationLocation, routes)` from the
`busRouting.js` copy bundled with `aggregateRouteInfo.js`
(`src/unnamed/part_005`): 750 m radius, candidates validated purely by
live prediction data.  `routes` is modelled as a list with unique ids
(`Object.values` iteration order); `now` is the `Date.now() / 1000`
reading used only by `calculateETA`. -/
def findBestRoute (hav : DistFn) (now : ℚ)
    (userLocation destinationLocation : Option Point) (routes : List Route) : BestRoute :=
  match userLocation, destinationLocation with
  | some u, some d =>
    let directWalkTime := calculateWalkTime hav (some u) (some d)
    let startStops := findNearbyStops hav u routes 750
    let endStops := findNearbyStops hav d routes 750
    if startStops.isEmpty then
      { emptyResult with
        recommendation := "error",
        reason := some "No bus stops nearby (within 750m)",
        directWalkTime := some directWalkTime,
        nearbyStartStops := some startStops }
    else if endStops.isEmpty then
      { emptyResult with
        recommendation := "error",
        reason := some "No bus stops near destination",
        directWalkTime := some directWalkTime,
        nearbyEndStops := some endStops }
    else
      assembleResult directWalkTime startStops endStops
        (possibleTrips hav now d routes startStops endStops)
  | _, _ =>
    { emptyResult with
      recommendation := "error",
      reason := some "Missing required data" }

end AggBusRouting

namespace BackEnd

/-- The body of the inner loop of the `src/BackEnd/busRouting.js`
`findBestRoute`: direction is checked topologically with
`isValidDirection`; the ride-time estimate (live data or fallback) is
used as-is and never causes the candidate to be skipped. -/
def tripFor (hav : DistFn) (now : ℚ) (destinationLocation : Point) (route : Route)
    (startStop endStop : NearbyStop) : Option TripCand :=
  if endStop.routeId ≠ startStop.routeId then none
  else
    let directionCheck := isValidDirection route startStop.stopId endStop.stopId
    if !directionCheck.valid then none
    else
      match findNextBus route startStop.stopId startStop.walkTimeMinutes with
      | none => none
      | some nextBus =>
        let busTravelTime := estimateBusTravelTime hav route startStop.stopId endStop.stopId (some nextBus)
        let walkFromStop := calculateWalkTime hav
          (some ⟨some endStop.latitude, some endStop.longitude⟩)
          (some destinationLocation)
        let totalTime := startStop.walkTimeMinutes + nextBus.waitTime +
          busTravelTime + walkFromStop
        some { routeId := route.id, routeName := route.name, routeColor := route.color,
               startStop := ⟨startStop.stopId, startStop.stopName,
                             startStop.latitude, startStop.longitude⟩,
               endStop := ⟨endStop.stopId, endStop.stopName,
                           endStop.latitude, endStop.longitude⟩,
               busId := nextBus.vehicleId, busETA := nextBus.eta,
               busCountdown := nextBus.countdown, isDelayed := nextBus.isDelayed,
               arrivalTime := nextBus.predictionTime,
               walkToStopTime := startStop.walkTimeMinutes,
               busWaitTime := nextBus.waitTime,
               busTravelTime := busTravelTime,
               walkFromStopTime := walkFromStop,
               totalTime := totalTime,
               ETA := calculateETA now totalTime,
               stopsBetween := directionCheck.stopsBetween }

/-- The `possibleTrips` list of the `src/BackEnd/busRouting.js`
`findBestRoute`. -/
def possibleTrips (hav : DistFn) (now : ℚ) (destinationLocation : Point)
    (routes : List Route) (startStops endStops : List NearbyStop) : List TripCand :=
  startStops.flatMap fun startStop =>
    match routes.find? (fun r => r.id = startStop.routeId) with
    | none => []
    | some route => endStops.filterMap (tripFor hav now destinationLocation route startStop)

/-- `findBestRoute(userLocation, destinationLocation, routes)` from
`src/BackEnd/busRouting.js`: 400 m radius, `isValidDirection` topology
check, ride time from `estimateBusTravelTime` with its distance/speed
fallback. -/
def findBestRoute (hav : DistFn) (now : ℚ)
    (userLocation destinationLocation : Option Point) (routes : List Route) : BestRoute :=
  match userLocation, destinationLocation with
  | some u, some d =>
    let directWalkTime := calculateWalkTime hav (some u) (some d)
    let startStops := findNearbyStops hav u routes 400
    let endStops := findNearbyStops hav d routes 400
    if startStops.isEmpty then
      { emptyResult with
        recommendation := "error",
        reason := some "No bus stops nearby (within 400m)",
        directWalkTime := some directWalkTime,
        nearbyStartStops := some startStops }
    else if endStops.isEmpty then
      { emptyResult with
        recommendation := "error",
        reason := some "No bus stops near destination",
        directWalkTime := some directWalkTime,
        nearbyEndStops := some endStops }
    else
      assembleResult directWalkTime startStops endStops
        (possibleTrips hav now d routes startStops endStops)
  | _, _ =>
    { emptyResult with
      recommendation := "error",
      reason := some "Missing required data" }

end BackEnd

/-- A constant distance function, used to instantiate the abstract
haversine parameter in concrete evaluations. -/
def havConst (q : ℚ) : DistFn := fun _ _ _ _ => q

/-- Scenario C fixture: a circular route whose ordered stop sequence is
S0, S1, S2, S0 (terminal stop duplicated). -/
def circRoute : Route :=
  { id := "CIRC", name := "Circular", color := "red",
    stops := [⟨"S0", "Stop 0", 40, -83⟩, ⟨"S1", "Stop 1", 41, -83⟩,
              ⟨"S2", "Stop 2", 42, -83⟩, ⟨"S0", "Stop 0", 40, -83⟩],
    isCircular := false, vehicles := [] }

/-- A vehicle holding two predictions for the same stop (a loop of a
circular route): the first arrives at minute 5, the second at minute
30. -/
def loopVehicle : Vehicle :=
  ⟨"V1", [⟨"S", some 300, "", "", false⟩, ⟨"S", some 1800, "", "", false⟩]⟩

/-- Route served by `loopVehicle` only. -/
def loopRoute : Route :=
  ⟨"R", "Route R", "blue", [], false, [loopVehicle]⟩

/-- A valid origin point used by the concrete `findBestRoute` runs. -/
def originPt : Point := ⟨some (399/10), some (-83)⟩

/-- A valid destination point used by the concrete `findBestRoute`
runs. -/
def destPt : Point := ⟨some (401/10), some (-831/10)⟩

/-- Fixture for the fallback behaviour of the `src/BackEnd` version: the
vehicle predicts only the start stop `S1`, never the end stop `S2`. -/
def partialPredRoute : Route :=
  { id := "PR", name := "Partial", color := "gray",
    stops := [⟨"S1", "Stop 1", 40, -83⟩, ⟨"S2", "Stop 2", 41, -84⟩],
    isCircular := false,
    vehicles := [⟨"VP", [⟨"S1", some 120, "", "", false⟩]⟩] }

/-- Fixture for the no-service branch: stops exist near both endpoints
but the route has no vehicles at all. -/
def noVehicleRoute : Route :=
  { id := "NV", name := "No Vehicles", color := "green",
    stops := [⟨"A", "Stop A", 40, -83⟩, ⟨"B", "Stop B", 41, -84⟩],
    isCircular := false, vehicles := [] }

/-- Claim C8: on the circular route with ordered stop sequence
S0, S1, S2, S0, `isValidDirection` applied to the pair (S2, S0) returns
valid with `stopsBetween = 1` (the duplicated terminal S0 resolves to
index 3, so the pair is a forward trip from index 2 to index 3). -/
theorem isValidDirection_circular_S2_S0 :
    isValidDirection circRoute "S2" "S0" = ⟨true, 1⟩ := by
  decide

/-- Counterexample to claim C2: `findNextBus` does **not** consider every
prediction for the requested stop.  The vehicle's prediction list holds
two predictions for stop `S` (minutes 5 and 30); with earliest-arrival
time 10 the second one qualifies (30 ≥ 10), yet the function returns
`none` because only the *first* matching prediction (minute 5, already
passed) is inspected per vehicle. -/
theorem findNextBus_skips_later_predictions :
    findNextBus loopRoute "S" 10 = none ∧
    (loopRoute.vehicles.flatMap Vehicle.predictions).any
      (fun p => p.stopId == "S" &&
        (match p.timeToArrivalInSeconds with
         | some t => decide ((10 : ℚ) ≤ t / 60)
         | none => false)) = true := by
  constructor
  · norm_num [findNextBus, nextBusStep, loopRoute, loopVehicle, List.find?]
  · norm_num [loopRoute, loopVehicle]

/-- Counterexample to claim C7: `calculateWalkTime` (the routing engine's
walk-time computation, cited by the claim) returns `0` — not a
`+infinity` sentinel — when its first input point is absent. -/
theorem calculateWalkTime_absent_zero_cex :
    calculateWalkTime (havConst 100) none (some ⟨some 40, some (-83)⟩) = 0 := by
  decide

/-- Claim C7 as amended: the search-UI helper `distanceMeters`
(`src/unnamed/part_000`) returns the `Infinity` sentinel when either
input point is absent, while the routing engine's `calculateWalkTime`
returns `0` minutes in that case. -/
theorem distanceMeters_absent_inf (hav : DistFn) (a b : Option Point)
    (h : a = none ∨ b = none) :
    distanceMeters hav a b = JsNum.inf ∧ calculateWalkTime hav a b = 0 := by
  rcases h with h | h <;> subst h
  · exact ⟨rfl, rfl⟩
  · refine ⟨by cases a <;> rfl, ?_⟩
    have hinv : (invalidPoint a || invalidPoint none) = true := by
      cases invalidPoint a <;> rfl
    unfold calculateWalkTime
    rw [if_pos hinv]

/-- Witness for `distanceMeters_absent_inf` at a concrete absent first
input. -/
theorem distanceMeters_absent_inf_witness :
    distanceMeters (havConst 100) none (some ⟨some 40, some (-83)⟩) = JsNum.inf ∧
    calculateWalkTime (havConst 100) none (some ⟨some 40, some (-83)⟩) = 0 :=
  distanceMeters_absent_inf (havConst 100) none (some ⟨some 40, some (-83)⟩) (Or.inl rfl)

/-- Claim C10: whenever either point is absent or has an absent-or-zero
latitude/longitude field (JS falsiness), `calculateWalkTime` returns `0`
minutes — not an error and not an infinite sentinel. -/
theorem calculateWalkTime_invalid_zero (hav : DistFn) (p1 p2 : Option Point)
    (h : (invalidPoint p1 || invalidPoint p2) = true) :
    calculateWalkTime hav p1 p2 = 0 := by
  unfold calculateWalkTime
  rw [if_pos h]

/-- Witness for `calculateWalkTime_invalid_zero`: a coordinate lying
exactly on the equator (latitude 0) is treated as invalid input and
yields a zero walking time. -/
theorem calculateWalkTime_invalid_zero_witness :
    calculateWalkTime (havConst 100) (some ⟨some 0, some (-83)⟩)
      (some ⟨some 40, some (-83)⟩) = 0 :=
  calculateWalkTime_invalid_zero (havConst 100) (some ⟨some 0, some (-83)⟩)
    (some ⟨some 40, some (-83)⟩) (by decide)

set_option maxHeartbeats 1600000 in
/-- Counterexample to claim C4 on the cited `src/BackEnd/busRouting.js`
implementation: the vehicle has **no** prediction for the end stop `S2`,
yet `findBestRoute` still recommends the trip, with a ride time of
`50/201` minutes obtained from the distance / average-bus-speed fallback
(`100 m / 6.7 m/s`, in minutes) instead of discarding the candidate. -/
theorem backend_keeps_fallback_trip_cex :
    (firstPredFor (⟨"VP", [⟨"S1", some 120, "", "", false⟩]⟩ : Vehicle).predictions "S2"
      = none) ∧
    (BackEnd.findBestRoute (havConst 100) 0 (some originPt) (some destPt)
      [partialPredRoute]).recommendation = "bus" ∧
    ((BackEnd.findBestRoute (havConst 100) 0 (some originPt) (some destPt)
      [partialPredRoute]).trip.map TripCand.busTravelTime) = some (50 / 201) := by
  have e1 : ("S2" : String) ≠ "S1" := by decide
  have e2 : ("S1" : String) ≠ "S2" := by decide
  refine ⟨by decide, ?_, ?_⟩ <;>
  norm_num [BackEnd.findBestRoute, BackEnd.possibleTrips, BackEnd.tripFor,
    BackEnd.estimateBusTravelTime,
    findNearbyStops, findNextBus, nextBusStep, calculateWalkTime, invalidPoint, falsyNum,
    assembleResult, emptyResult, havConst, partialPredRoute, originPt, destPt, List.find?,
    List.filterMap_cons, List.flatMap_cons, List.flatMap_nil, sortTrips, insertTrip,
    isValidDirection, stopPositions, firstPredFor, List.enum, List.enumFrom, e1, e2]

/-- Counterexample to claim C6: both candidate stop sets are non-empty
(two stops near each endpoint) and no candidate trip survives (the route
has no vehicles), and the returned no-service error result does **not**
carry a `directWalkTime` field (unlike the two no-nearby-stops error
branches). -/
theorem agg_noservice_result_cex :
    (AggBusRouting.findBestRoute (havConst 100) 0 (some originPt) (some destPt)
      [noVehicleRoute]).directWalkTime = none ∧
    (AggBusRouting.findBestRoute (havConst 100) 0 (some originPt) (some destPt)
      [noVehicleRoute]).recommendation = "error" ∧
    (AggBusRouting.findBestRoute (havConst 100) 0 (some originPt) (some destPt)
      [noVehicleRoute]).reason = some "No buses running along your route" ∧
    ((AggBusRouting.findBestRoute (havConst 100) 0 (some originPt) (some destPt)
      [noVehicleRoute]).nearbyStartStops.getD []).length = 2 ∧
    ((AggBusRouting.findBestRoute (havConst 100) 0 (some originPt) (some destPt)
      [noVehicleRoute]).nearbyEndStops.getD []).length = 2 := by
  norm_num [AggBusRouting.findBestRoute, AggBusRouting.possibleTrips, AggBusRouting.tripFor,
    findNearbyStops, findNextBus, nextBusStep, calculateWalkTime, invalidPoint, falsyNum,
    assembleResult, emptyResult, havConst, noVehicleRoute, originPt, destPt, List.find?,
    List.filterMap_cons, List.flatMap_cons, List.flatMap_nil, sortTrips, insertTrip]

/-- The pairwise ordering the specification describes for the candidate
sort: totals within the 1-minute threshold are ordered by start-stop walk
time, all others by total time. -/
def specOrder (x y : TripCand) : Prop :=
  if |x.totalTime - y.totalTime| ≤ 1 then x.walkToStopTime ≤ y.walkToStopTime
  else x.totalTime ≤ y.totalTime

instance (x y : TripCand) : Decidable (specOrder x y) := by
  unfold specOrder; infer_instance

/-- The comparator-derived Boolean order agrees with `specOrder`. -/
lemma tripLe_iff (a b : TripCand) : tripLe a b = true ↔ specOrder a b := by
  unfold tripLe tripCompare specOrder
  by_cases h : |a.totalTime - b.totalTime| ≤ 1 <;>
    simp [h, sub_nonpos]

/-- The comparator order is total. -/
lemma specOrder_total (a b : TripCand) : specOrder a b ∨ specOrder b a := by
  unfold specOrder
  rw [abs_sub_comm b.totalTime a.totalTime]
  by_cases h : |a.totalTime - b.totalTime| ≤ 1
  · simp only [h, if_true]
    exact le_total a.walkToStopTime b.walkToStopTime
  · simp only [h, if_false]
    exact le_total a.totalTime b.totalTime

/-- The head of an insertion is the new element or the old head. -/
lemma insertTrip_head? (x : TripCand) (l : List TripCand) :
    (insertTrip x l).head? = some x ∨ (insertTrip x l).head? = l.head? := by
  cases l with
  | nil => left; rfl
  | cons y ys =>
    rw [insertTrip]
    by_cases h : tripLe x y
    · left; rw [if_pos h]; rfl
    · right; rw [if_neg h]; rfl

/-- Inserting preserves a `specOrder` chain. -/
lemma chain'_insertTrip (x : TripCand) (l : List TripCand)
    (h : l.Chain' specOrder) : (insertTrip x l).Chain' specOrder := by
  induction l with
  | nil => simp [insertTrip]
  | cons y ys ih =>
    rw [insertTrip]
    by_cases hxy : tripLe x y
    · rw [if_pos hxy]
      exact (List.chain'_cons.mpr ⟨(tripLe_iff x y).mp hxy, h⟩)
    · rw [if_neg hxy]
      have hyx : specOrder y x := by
        rcases specOrder_total x y with hs | hs
        · exact absurd ((tripLe_iff x y).mpr hs) hxy
        · exact hs
      have hrest := ih (List.chain'_cons'.mp h).2
      refine hrest.cons' ?_
      intro z hz
      rcases insertTrip_head? x ys with hh | hh
      · rw [hh] at hz
        simp only [Option.mem_def, Option.some.injEq] at hz
        exact hz ▸ hyx
      · rw [hh] at hz
        exact (List.chain'_cons'.mp h).1 z hz

/-- Claim C5: the candidate sort orders by total time ascending except
that candidates whose totals differ by at most the 1-minute similarity
threshold are ordered by start-stop walk time; in particular, with
exactly two surviving candidates the first element of the sorted list
(the returned `primaryTrip`) is the one the rule selects, and every
adjacent pair of the sorted list satisfies the rule. -/
theorem sortTrips_tiebreak_spec (a b : TripCand) :
    ((sortTrips [a, b]).head? =
      some (if |a.totalTime - b.totalTime| ≤ 1
            then (if a.walkToStopTime ≤ b.walkToStopTime then a else b)
            else (if a.totalTime ≤ b.totalTime then a else b))) ∧
    (∀ l : List TripCand, (sortTrips l).Chain' specOrder) ∧
    (∀ (dw : ℚ) (ss es : List NearbyStop) (l : List TripCand)
        (best : TripCand) (rest : List TripCand),
      sortTrips l = best :: rest →
      (assembleResult dw ss es l).trip = some best ∧
      (assembleResult dw ss es l).alternativeTrips = rest.take 2) := by
  refine ⟨?_, ?_, ?_⟩
  · show (insertTrip a [b]).head? = _
    rw [insertTrip]
    by_cases h : tripLe a b
    · rw [if_pos h]
      have := (tripLe_iff a b).mp h
      unfold specOrder at this
      by_cases ht : |a.totalTime - b.totalTime| ≤ 1
      · rw [if_pos ht] at this
        rw [if_pos ht, if_pos this]
        rfl
      · rw [if_neg ht] at this
        rw [if_neg ht, if_pos this]
        rfl
    · rw [if_neg h]
      have hns : ¬ specOrder a b := fun hs => h ((tripLe_iff a b).mpr hs)
      unfold specOrder at hns
      by_cases ht : |a.totalTime - b.totalTime| ≤ 1
      · rw [if_pos ht] at hns
        rw [if_pos ht, if_neg hns]
        rfl
      · rw [if_neg ht] at hns
        rw [if_neg ht, if_neg hns]
        rfl
  · intro l
    induction l with
    | nil => exact List.chain'_nil
    | cons x xs ih => exact chain'_insertTrip x _ ih
  · intro dw ss es l best rest hsort
    have hne : ¬ l.isEmpty = true := by
      intro hl
      rw [List.isEmpty_iff.mp hl] at hsort
      cases hsort
    unfold assembleResult
    rw [if_neg hne, hsort]
    exact ⟨rfl, rfl⟩

/-- A `forEach`-style overwrite fold is determined by the last matching
element, i.e. the first match in the reversed list. -/
lemma foldl_overwrite {α β : Type} (P : α → Prop) [DecidablePred P] (g : α → β) :
    ∀ (l : List α) (acc : Option β),
      l.foldl (fun a x => if P x then some (g x) else a) acc
        = ((l.reverse.find? (fun x => decide (P x))).map g).or acc := by
  intro l
  induction l with
  | nil => intro acc; simp
  | cons x t ih =>
    intro acc
    rw [List.foldl_cons, ih, List.reverse_cons, List.find?_append]
    cases ht : t.reverse.find? (fun x => decide (P x)) with
    | some y => simp [Option.or]
    | none =>
      by_cases hx : P x <;> simp [List.find?, hx, Option.or]

/-- `stopPositions` characterised: the last index whose stop id matches. -/
lemma stopPositions_eq_findRev (stops : List Stop) (sid : String) :
    stopPositions stops sid
      = (stops.enum.reverse.find? (fun q => q.2.id = sid)).map Prod.fst := by
  unfold stopPositions
  rw [foldl_overwrite (fun q : Nat × Stop => q.2.id = sid) Prod.fst]
  cases (stops.enum.reverse.find? fun q => q.2.id = sid) <;> simp [Option.or]

/-- A resolved stop position is a valid index of the stop list. -/
lemma stopPositions_lt (stops : List Stop) (sid : String) (k : Nat)
    (h : stopPositions stops sid = some k) : k < stops.length := by
  rw [stopPositions_eq_findRev] at h
  rcases Option.map_eq_some'.mp h with ⟨⟨i, st⟩, hfind, hfst⟩
  have hmem : (i, st) ∈ stops.enum := by
    have := List.mem_of_find?_eq_some hfind
    exact (List.mem_reverse).mp this
  have := List.mem_enum_iff_getElem?.mp hmem
  have hlt := List.getElem?_eq_some_iff.mp this
  simpa [← hfst] using hlt.1

/-- On a two-stop list whose two ids coincide, no id can resolve to
position 0: the overwrite map always keeps the last index. -/
lemma stopPositions_pair_ne_zero (s0 s1 : Stop) (e : String)
    (hid : s0.id = s1.id) (h : stopPositions [s0, s1] e = some 0) : False := by
  rw [stopPositions_eq_findRev] at h
  have henum : (([s0, s1] : List Stop).enum).reverse = [(1, s1), (0, s0)] := rfl
  rw [henum] at h
  by_cases h1 : s1.id = e
  · simp [List.find?, h1] at h
  · by_cases h0 : s0.id = e
    · exact h1 (hid ▸ h0)
    · simp [List.find?, h1, h0] at h

/-- Claim C1: `isValidDirection` implements exactly the direction rule of
the specification: invalid when an id is missing or the resolved indices
are equal; valid with `stopsBetween = endIndex - startIndex` when
`endIndex > startIndex`; valid with the wraparound count
`(totalStops - startIndex) + endIndex` when the route is circular
(explicit flag, or identical first and last stop ids) and
`endIndex < startIndex`; invalid otherwise — in particular, on a
non-circular route validity holds iff the start index is strictly below
the end index. -/
theorem isValidDirection_matches_spec (route : Route) (s e : String) :
    isValidDirection route s e = checkDirectionSpec route s e := by
  unfold isValidDirection checkDirectionSpec
  cases hs : stopPositions route.stops s with
  | none => cases stopPositions route.stops e <;> rfl
  | some i =>
    cases he : stopPositions route.stops e with
    | none => rfl
    | some j =>
      dsimp only
      by_cases hij : i = j
      · rw [if_pos hij, if_pos hij]
      · rw [if_neg hij, if_neg hij]
        by_cases hlt : i < j
        · rw [if_pos hlt, if_pos hlt]
        · rw [if_neg hlt, if_neg hlt]
          have hji : j < i := by omega
          have hdec : decide (j < i) = true := decide_eq_true hji
          rw [hdec, Bool.and_true]
          by_cases hflag : route.isCircular
          · rw [hflag, Bool.true_or, Bool.true_or]
          · rw [Bool.not_eq_true] at hflag
            rw [hflag, Bool.false_or, Bool.false_or]
            by_cases hhl : Option.map Stop.id route.stops.head?
                = Option.map Stop.id route.stops.getLast?
            · rw [decide_eq_true hhl, Bool.and_true]
              by_cases hlen : 2 < route.stops.length
              · rw [decide_eq_true hlen]
              · exfalso
                have hi := stopPositions_lt route.stops s i hs
                have hi1 : i = 1 := by omega
                have hj0 : j = 0 := by omega
                have hlen2 : route.stops.length = 2 := by omega
                match hstops : route.stops, hlen2 with
                | [s0, s1], _ =>
                  rw [hstops] at he hhl
                  have hid : s0.id = s1.id := by
                    simpa using hhl
                  exact stopPositions_pair_ne_zero s0 s1 e hid (hj0 ▸ he)
            · have : decide (Option.map Stop.id route.stops.head?
                  = Option.map Stop.id route.stops.getLast?) = false :=
                decide_eq_false hhl
              rw [this, Bool.and_false]

/-- Invariant of the `findNextBus` vehicle scan after processing the
vehicles in `vs`: an empty accumulator means no processed vehicle
qualified, and a non-empty one stores the minimal qualifying first-match
arrival seen so far together with its vehicle. -/
def NextBusInv (stopId : String) (t : ℚ) (vs : List Vehicle)
    (st : Option BusInfo × Option ℚ) : Prop :=
  (st.1 = none → st.2 = none ∧ ∀ v ∈ vs, qualArrival stopId t v = none) ∧
  (∀ b, st.1 = some b →
    st.2 = some b.eta ∧ b.vehicle ∈ vs ∧ b.vehicleId = b.vehicle.id ∧
    qualArrival stopId t b.vehicle = some b.eta ∧
    b.waitTime = b.eta - t ∧ t ≤ b.eta ∧
    ∀ v ∈ vs, ∀ m, qualArrival stopId t v = some m → b.eta ≤ m)

/-- One scan step preserves the invariant. -/
lemma nextBusInv_step (stopId : String) (t : ℚ) (vs : List Vehicle)
    (st : Option BusInfo × Option ℚ) (v : Vehicle)
    (h : NextBusInv stopId t vs st) :
    NextBusInv stopId t (vs ++ [v]) (nextBusStep stopId t st v) := by
  have hmemsplit : ∀ u : Vehicle, u ∈ vs ++ [v] → u ∈ vs ∨ u = v := by
    intro u hu
    rcases List.mem_append.mp hu with hu | hu
    · exact Or.inl hu
    · exact Or.inr (List.mem_singleton.mp hu)
  unfold nextBusStep
  cases hf : v.predictions.find? (fun p => p.stopId = stopId) with
  | none =>
    dsimp only
    have hq : qualArrival stopId t v = none := by
      unfold qualArrival vehicleArrival
      rw [hf]
    refine ⟨fun hn => ⟨(h.1 hn).1, ?_⟩, fun b hb => ?_⟩
    · intro u hu
      rcases hmemsplit u hu with hu | hu
      · exact (h.1 hn).2 u hu
      · exact hu ▸ hq
    · obtain ⟨h2, h3, h4, h5, h6, h7, h8⟩ := h.2 b hb
      refine ⟨h2, List.mem_append_left _ h3, h4, h5, h6, h7, ?_⟩
      intro u hu m hm
      rcases hmemsplit u hu with hu | hu
      · exact h8 u hu m hm
      · rw [hu, hq] at hm; cases hm
  | some pred =>
    dsimp only
    cases hts : pred.timeToArrivalInSeconds with
    | none =>
      dsimp only
      have hq : qualArrival stopId t v = none := by
        unfold qualArrival vehicleArrival
        rw [hf]
        dsimp only
        rw [hts]
        rfl
      refine ⟨fun hn => ⟨(h.1 hn).1, ?_⟩, fun b hb => ?_⟩
      · intro u hu
        rcases hmemsplit u hu with hu | hu
        · exact (h.1 hn).2 u hu
        · exact hu ▸ hq
      · obtain ⟨h2, h3, h4, h5, h6, h7, h8⟩ := h.2 b hb
        refine ⟨h2, List.mem_append_left _ h3, h4, h5, h6, h7, ?_⟩
        intro u hu m hm
        rcases hmemsplit u hu with hu | hu
        · exact h8 u hu m hm
        · rw [hu, hq] at hm; cases hm
    | some secs =>
      dsimp only
      have hqv : qualArrival stopId t v
          = if t ≤ secs / 60 then some (secs / 60) else none := by
        unfold qualArrival vehicleArrival
        rw [hf]
        dsimp only
        rw [hts]
        rfl
      by_cases hcond : (decide (t ≤ secs / 60) &&
          (match st.2 with
           | none => true
           | some w => decide (secs / 60 < w))) = true
      · rw [if_pos hcond]
        have hle : t ≤ secs / 60 := of_decide_eq_true (Bool.and_elim_left hcond)
        refine ⟨fun hn => Option.noConfusion hn, fun b hb => ?_⟩
        have hbval : b = { vehicleId := v.id, eta := secs / 60,
                           waitTime := secs / 60 - t,
                           predictionTime := pred.predictionTime,
                           countdown := pred.predictionCountdown,
                           isDelayed := pred.isDelayed,
                           prediction := pred, vehicle := v } := by
          injection hb with hb
          exact hb.symm
        subst hbval
        refine ⟨rfl, List.mem_append_right _ (List.mem_singleton.mpr rfl), rfl,
          by rw [hqv, if_pos hle], rfl, hle, ?_⟩
        intro u hu m hm
        rcases hmemsplit u hu with hu | hu
        · -- an earlier vehicle: compare through the previous best
          cases hst : st.1 with
          | none => rw [((h.1 hst).2 u hu)] at hm; cases hm
          | some bprev =>
            obtain ⟨h2, _, _, _, _, _, h8⟩ := h.2 bprev hst
            have hlt : secs / 60 < bprev.eta := by
              have := Bool.and_elim_right hcond
              rw [h2] at this
              exact of_decide_eq_true this
            exact le_of_lt (lt_of_lt_of_le hlt (h8 u hu m hm))
        · rw [hu, hqv, if_pos hle] at hm
          injection hm with hm
          exact le_of_eq hm
      · rw [if_neg hcond]
        refine ⟨fun hn => ⟨(h.1 hn).1, ?_⟩, fun b hb => ?_⟩
        · intro u hu
          rcases hmemsplit u hu with hu | hu
          · exact (h.1 hn).2 u hu
          · subst hu
            rw [hqv]
            have hn2 := (h.1 hn).1
            rw [hn2] at hcond
            simp only [Bool.and_true] at hcond
            rw [if_neg (fun hle => hcond (decide_eq_true hle))]
        · obtain ⟨h2, h3, h4, h5, h6, h7, h8⟩ := h.2 b hb
          refine ⟨h2, List.mem_append_left _ h3, h4, h5, h6, h7, ?_⟩
          intro u hu m hm
          rcases hmemsplit u hu with hu | hu
          · exact h8 u hu m hm
          · subst hu
            rw [hqv] at hm
            by_cases hle : t ≤ secs / 60
            · rw [if_pos hle] at hm
              injection hm with hm
              subst hm
              rw [h2] at hcond
              simp only [decide_eq_true hle, Bool.true_and] at hcond
              exact le_of_not_lt (fun hlt => hcond (decide_eq_true hlt))
            · rw [if_neg hle] at hm; cases hm

/-- The invariant carries through the whole fold. -/
lemma nextBusInv_foldl (stopId : String) (t : ℚ) :
    ∀ (l vs : List Vehicle) (st : Option BusInfo × Option ℚ),
      NextBusInv stopId t vs st →
      NextBusInv stopId t (vs ++ l) (l.foldl (nextBusStep stopId t) st) := by
  intro l
  induction l with
  | nil => intro vs st h; simpa using h
  | cons v tl ih =>
    intro vs st h
    rw [List.foldl_cons]
    have := ih (vs ++ [v]) _ (nextBusInv_step stopId t vs st v h)
    simpa [List.append_assoc] using this

/-- Claim C2 as amended: per vehicle only the **first** prediction whose
stop id matches is considered; a vehicle whose first match is undefined
or arrives before `t` is skipped entirely.  Among the surviving vehicles
`findNextBus` returns the one with the smallest first-match arrival
`≥ t`; its wait time is `eta - t` and is never negative; it returns
`none` exactly when no vehicle qualifies (in particular when the route
has no vehicles). -/
theorem findNextBus_first_match_spec (route : Route) (stopId : String) (t : ℚ) :
    (findNextBus route stopId t = none ↔
      ∀ v ∈ route.vehicles, qualArrival stopId t v = none) ∧
    (∀ b, findNextBus route stopId t = some b →
      b.vehicle ∈ route.vehicles ∧ b.vehicleId = b.vehicle.id ∧
      qualArrival stopId t b.vehicle = some b.eta ∧
      b.waitTime = b.eta - t ∧ t ≤ b.eta ∧ 0 ≤ b.waitTime ∧
      ∀ v ∈ route.vehicles, ∀ m, qualArrival stopId t v = some m → b.eta ≤ m) := by
  have hbase : NextBusInv stopId t [] (none, none) := by
    constructor
    · intro _
      exact ⟨rfl, fun v hv => absurd hv (List.not_mem_nil v)⟩
    · intro b hb
      cases hb
  have hinv := nextBusInv_foldl stopId t route.vehicles [] (none, none) hbase
  rw [List.nil_append] at hinv
  unfold findNextBus
  by_cases hemp : route.vehicles.isEmpty
  · rw [if_pos hemp]
    have hnil : route.vehicles = [] := List.isEmpty_iff.mp hemp
    refine ⟨⟨fun _ v hv => ?_, fun _ => rfl⟩, fun b hb => by cases hb⟩
    rw [hnil] at hv
    exact absurd hv (List.not_mem_nil v)
  · rw [if_neg hemp]
    constructor
    · constructor
      · intro hn
        exact (hinv.1 hn).2
      · intro hall
        cases hres : (route.vehicles.foldl (nextBusStep stopId t) (none, none)).1 with
        | none => rfl
        | some b =>
          obtain ⟨_, h3, _, h5, _, _, _⟩ := hinv.2 b hres
          rw [hall b.vehicle h3] at h5
          cases h5
    · intro b hb
      obtain ⟨_, h3, h4, h5, h6, h7, h8⟩ := hinv.2 b hb
      exact ⟨h3, h4, h5, h6, h7, by rw [h6]; exact sub_nonneg.mpr h7, h8⟩

/-- Vehicle fixture for the witness of the amended C2 claim. -/
def witnessVehicle : Vehicle := ⟨"VW", [⟨"S", some 600, "", "", false⟩]⟩

/-- Route fixture for the witness of the amended C2 claim. -/
def witnessRoute : Route := ⟨"RW", "Route W", "red", [], false, [witnessVehicle]⟩

/-- The bus record `findNextBus` returns on `witnessRoute`. -/
def witnessBus : BusInfo :=
  ⟨"VW", 10, 10, "", "", false, ⟨"S", some 600, "", "", false⟩, witnessVehicle⟩

/-- Witness for `findNextBus_first_match_spec` at a concrete route. -/
theorem findNextBus_first_match_spec_witness :
    witnessBus.vehicle ∈ witnessRoute.vehicles ∧ 0 ≤ witnessBus.waitTime := by
  have hb : findNextBus witnessRoute "S" 0 = some witnessBus := by
    norm_num [findNextBus, nextBusStep, witnessRoute, witnessVehicle, witnessBus, List.find?]
  have h := (findNextBus_first_match_spec witnessRoute "S" 0).2 witnessBus hb
  exact ⟨h.1, h.2.2.2.2.2.1⟩

/-- Claim C3: when the vehicle's prediction list has a first prediction
for the start stop with a defined arrival `ts`, and a first prediction
for the end stop with defined arrival strictly after `ts` and strictly
before the next occurrence of the start stop (`+infinity` when none),
`estimateBusTravelTime` returns exactly ride time `(te - ts)/60` minutes
and the number of distinct stop ids with predicted arrival in the
half-open window `(ts, te]`. -/
theorem estimateBusTravelTime_live_spec (route : Route) (startStopId endStopId : String)
    (info : BusInfo) (sp ep : Prediction) (ts te : ℚ)
    (hsp : firstPredFor info.vehicle.predictions startStopId = some sp)
    (hts : sp.timeToArrivalInSeconds = some ts)
    (hep : findEndPred info.vehicle.predictions endStopId ts
        (loopBackBound info.vehicle.predictions startStopId ts) = some ep)
    (hte : ep.timeToArrivalInSeconds = some te) :
    AggBusRouting.estimateBusTravelTime route startStopId endStopId (some info)
      = ⟨(te - ts) / 60, (stopsInWindow info.vehicle.predictions ts te).length⟩ := by
  unfold AggBusRouting.estimateBusTravelTime
  dsimp only
  rw [hsp]
  dsimp only
  rw [hts]
  dsimp only
  rw [hep]
  dsimp only
  rw [hte]

/-- Prediction list of a vehicle that loops: stop ids A, B, C repeat. -/
def loopPredList : List Prediction :=
  [⟨"A", some 60, "", "", false⟩, ⟨"B", some 120, "", "", false⟩,
   ⟨"C", some 180, "", "", false⟩, ⟨"A", some 300, "", "", false⟩,
   ⟨"B", some 360, "", "", false⟩]

/-- Vehicle carrying `loopPredList`. -/
def loopVehicleC3 : Vehicle := ⟨"VL", loopPredList⟩

/-- Matched-bus record pointing at `loopVehicleC3`. -/
def loopBusInfo : BusInfo :=
  ⟨"VL", 2, 2, "", "", false, ⟨"B", some 120, "", "", false⟩, loopVehicleC3⟩

/-- Route served by `loopVehicleC3`. -/
def loopRouteC3 : Route := ⟨"LR", "Loop", "red", [], false, [loopVehicleC3]⟩

/-- Witness for `estimateBusTravelTime_live_spec`: riding B→C on the
looping prediction list takes one minute, passing one distinct stop,
bounded away from the second loop. -/
theorem estimateBusTravelTime_live_spec_witness :
    AggBusRouting.estimateBusTravelTime loopRouteC3 "B" "C" (some loopBusInfo)
      = ⟨1, 1⟩ := by
  have e1 : ("A" : String) ≠ "B" := by decide
  have e2 : ("C" : String) ≠ "B" := by decide
  have e3 : ("A" : String) ≠ "C" := by decide
  have e4 : ("B" : String) ≠ "C" := by decide
  have hsp : firstPredFor loopBusInfo.vehicle.predictions "B"
      = some ⟨"B", some 120, "", "", false⟩ := by
    norm_num [firstPredFor, loopBusInfo, loopVehicleC3, loopPredList, List.find?, e1, e2]
  have hep : findEndPred loopBusInfo.vehicle.predictions "C" 120
      (loopBackBound loopBusInfo.vehicle.predictions "B" 120)
      = some ⟨"C", some 180, "", "", false⟩ := by
    norm_num [findEndPred, loopBackBound, loopBusInfo, loopVehicleC3, loopPredList, List.find?,
      e1, e2, e3, e4]
  have h := estimateBusTravelTime_live_spec loopRouteC3 "B" "C" loopBusInfo
    ⟨"B", some 120, "", "", false⟩ ⟨"C", some 180, "", "", false⟩ 120 180 hsp rfl hep rfl
  rw [h]
  norm_num [stopsInWindow, loopBusInfo, loopVehicleC3, loopPredList, List.dedup]

/-- Insertion permutes a cons. -/
lemma insertTrip_perm (x : TripCand) (l : List TripCand) :
    (insertTrip x l).Perm (x :: l) := by
  induction l with
  | nil => exact List.Perm.refl _
  | cons y ys ih =>
    rw [insertTrip]
    by_cases h : tripLe x y
    · rw [if_pos h]
    · rw [if_neg h]
      exact ((ih.cons y).trans (List.Perm.swap x y ys))

/-- The candidate sort is a permutation. -/
lemma sortTrips_perm (l : List TripCand) : (sortTrips l).Perm l := by
  induction l with
  | nil => exact List.Perm.refl _
  | cons x xs ih =>
    exact (insertTrip_perm x (sortTrips xs)).trans (ih.cons x)

/-- Membership is preserved by the candidate sort. -/
lemma mem_sortTrips {tr : TripCand} {l : List TripCand} :
    tr ∈ sortTrips l ↔ tr ∈ l :=
  (sortTrips_perm l).mem_iff

/-- Claim C4 as amended, for the `findBestRoute` version bundled with
`aggregateRouteInfo.js` (`src/unnamed/part_005`): (i) when the matched
vehicle's predictions yield no qualifying end-stop prediction the
ride-time estimate is exactly `{travelTime: 0, stopsBetween: 0}`; (ii) a
positive estimate can only come from an actual pair of live predictions
(no distance/average-speed value is ever substituted); (iii) every
candidate in `possibleTrips` has a strictly positive ride time, so
zero-estimate candidates are discarded; and (iv) the primary trip and
every alternative returned by `findBestRoute` are members of
`possibleTrips` — a discarded candidate can never appear in the
result. -/
theorem agg_live_only_and_discard :
    (∀ (route : Route) (s e : String) (info : BusInfo) (sp : Prediction) (ts : ℚ),
        firstPredFor info.vehicle.predictions s = some sp →
        sp.timeToArrivalInSeconds = some ts →
        findEndPred info.vehicle.predictions e ts
          (loopBackBound info.vehicle.predictions s ts) = none →
        AggBusRouting.estimateBusTravelTime route s e (some info) = ⟨0, 0⟩) ∧
    (∀ (route : Route) (s e : String) (info : Option BusInfo),
        0 < (AggBusRouting.estimateBusTravelTime route s e info).travelTime →
        ∃ busInfo sp ep ts te, info = some busInfo ∧
          firstPredFor busInfo.vehicle.predictions s = some sp ∧
          sp.timeToArrivalInSeconds = some ts ∧
          findEndPred busInfo.vehicle.predictions e ts
            (loopBackBound busInfo.vehicle.predictions s ts) = some ep ∧
          ep.timeToArrivalInSeconds = some te ∧
          (AggBusRouting.estimateBusTravelTime route s e info).travelTime
            = (te - ts) / 60) ∧
    (∀ (hav : DistFn) (now : ℚ) (d : Point) (routes : List Route)
        (ss es : List NearbyStop) (tr : TripCand),
        tr ∈ AggBusRouting.possibleTrips hav now d routes ss es →
        0 < tr.busTravelTime) ∧
    (∀ (hav : DistFn) (now : ℚ) (u d : Point) (routes : List Route) (tr : TripCand),
        ((AggBusRouting.findBestRoute hav now (some u) (some d) routes).trip = some tr ∨
          tr ∈ (AggBusRouting.findBestRoute hav now (some u) (some d) routes).alternativeTrips) →
        tr ∈ AggBusRouting.possibleTrips hav now d routes
          (findNearbyStops hav u routes 750) (findNearbyStops hav d routes 750)) := by
  refine ⟨?_, ?_, ?_, ?_⟩
  · intro route s e info sp ts hsp hts hep
    unfold AggBusRouting.estimateBusTravelTime
    dsimp only
    rw [hsp]
    dsimp only
    rw [hts]
    dsimp only
    rw [hep]
  · intro route s e info hpos
    unfold AggBusRouting.estimateBusTravelTime at hpos ⊢
    cases info with
    | none => exact absurd hpos (by norm_num)
    | some busInfo =>
      dsimp only at hpos ⊢
      cases hsp : firstPredFor busInfo.vehicle.predictions s with
      | none => rw [hsp] at hpos; exact absurd hpos (by norm_num)
      | some sp =>
        rw [hsp] at hpos
        dsimp only at hpos ⊢
        cases hts : sp.timeToArrivalInSeconds with
        | none => rw [hts] at hpos; exact absurd hpos (by norm_num)
        | some ts =>
          rw [hts] at hpos
          dsimp only at hpos ⊢
          cases hep : findEndPred busInfo.vehicle.predictions e ts
              (loopBackBound busInfo.vehicle.predictions s ts) with
          | none => rw [hep] at hpos; exact absurd hpos (by norm_num)
          | some ep =>
            rw [hep] at hpos
            dsimp only at hpos ⊢
            cases hte : ep.timeToArrivalInSeconds with
            | none => rw [hte] at hpos; exact absurd hpos (by norm_num)
            | some te =>
              exact ⟨busInfo, sp, ep, ts, te, rfl, hsp, hts, hep, hte, rfl⟩
  · intro hav now d routes ss es tr htr
    unfold AggBusRouting.possibleTrips at htr
    rcases List.mem_flatMap.mp htr with ⟨startStop, _, hmem⟩
    cases hroute : routes.find? (fun r => r.id = startStop.routeId) with
    | none => rw [hroute] at hmem; cases hmem
    | some route =>
      rw [hroute] at hmem
      rcases List.mem_filterMap.mp hmem with ⟨endStop, _, htrip⟩
      unfold AggBusRouting.tripFor at htrip
      by_cases hr : endStop.routeId ≠ startStop.routeId
      · rw [if_pos hr] at htrip; cases htrip
      · rw [if_neg hr] at htrip
        by_cases hsame : startStop.stopId = endStop.stopId
        · rw [if_pos hsame] at htrip; cases htrip
        · rw [if_neg hsame] at htrip
          cases hnb : findNextBus route startStop.stopId startStop.walkTimeMinutes with
          | none => rw [hnb] at htrip; cases htrip
          | some nextBus =>
            rw [hnb] at htrip
            dsimp only at htrip
            by_cases hest : (AggBusRouting.estimateBusTravelTime route
                startStop.stopId endStop.stopId (some nextBus)).travelTime ≤ 0
            · rw [if_pos hest] at htrip; cases htrip
            · rw [if_neg hest] at htrip
              injection htrip with htrip
              rw [← htrip]
              exact lt_of_not_le hest
  · intro hav now u d routes tr htr
    unfold AggBusRouting.findBestRoute at htr
    dsimp only at htr
    by_cases hss : (findNearbyStops hav u routes 750).isEmpty
    · rw [if_pos hss] at htr
      rcases htr with htr | htr
      · cases htr
      · exact absurd htr (List.not_mem_nil tr)
    · rw [if_neg hss] at htr
      by_cases hes : (findNearbyStops hav d routes 750).isEmpty
      · rw [if_pos hes] at htr
        rcases htr with htr | htr
        · cases htr
        · exact absurd htr (List.not_mem_nil tr)
      · rw [if_neg hes] at htr
        unfold assembleResult at htr
        by_cases hemp : (AggBusRouting.possibleTrips hav now d routes
            (findNearbyStops hav u routes 750) (findNearbyStops hav d routes 750)).isEmpty
        · rw [if_pos hemp] at htr
          rcases htr with htr | htr
          · cases htr
          · exact absurd htr (List.not_mem_nil tr)
        · rw [if_neg hemp] at htr
          cases hsort : sortTrips (AggBusRouting.possibleTrips hav now d routes
              (findNearbyStops hav u routes 750) (findNearbyStops hav d routes 750)) with
          | nil =>
            rw [hsort] at htr
            rcases htr with htr | htr
            · cases htr
            · exact absurd htr (List.not_mem_nil tr)
          | cons best rest =>
            rw [hsort] at htr
            have hin : tr ∈ sortTrips (AggBusRouting.possibleTrips hav now d routes
                (findNearbyStops hav u routes 750) (findNearbyStops hav d routes 750)) := by
              rw [hsort]
              rcases htr with htr | htr
              · injection htr with htr
                exact htr ▸ List.mem_cons_self best rest
              · exact List.mem_cons_of_mem best (List.mem_of_mem_take htr)
            exact mem_sortTrips.mp hin

/-- Witness for `agg_live_only_and_discard`: the vehicle that predicts
only the start stop yields the zero estimate of part (i). -/
theorem agg_live_only_and_discard_witness :
    AggBusRouting.estimateBusTravelTime partialPredRoute "S1" "S2"
      (some ⟨"VP", 2, 2, "", "", false, ⟨"S1", some 120, "", "", false⟩,
            ⟨"VP", [⟨"S1", some 120, "", "", false⟩]⟩⟩) = ⟨0, 0⟩ := by
  have e2 : ("S1" : String) ≠ "S2" := by decide
  exact agg_live_only_and_discard.1 partialPredRoute "S1" "S2" _
    ⟨"S1", some 120, "", "", false⟩ 120
    (by norm_num [firstPredFor, List.find?])
    rfl
    (by norm_num [findEndPred, loopBackBound, List.find?, e2])

/-- Claim C6 as amended: when both candidate stop sets are non-empty but
no candidate trip survives, `findBestRoute` returns recommendation
"error" with the no-service reason and the two nearby-stop lists — and
the `directWalkTime` field is **not** part of this result object (it is
populated only in the two no-nearby-stops error branches). -/
theorem agg_noservice_shape (hav : DistFn) (now : ℚ) (u d : Point)
    (routes : List Route)
    (hss : findNearbyStops hav u routes 750 ≠ [])
    (hes : findNearbyStops hav d routes 750 ≠ [])
    (hempty : AggBusRouting.possibleTrips hav now d routes
        (findNearbyStops hav u routes 750) (findNearbyStops hav d routes 750) = []) :
    AggBusRouting.findBestRoute hav now (some u) (some d) routes =
      { emptyResult with
        recommendation := "error",
        reason := some "No buses running along your route",
        nearbyStartStops := some (findNearbyStops hav u routes 750),
        nearbyEndStops := some (findNearbyStops hav d routes 750) } := by
  unfold AggBusRouting.findBestRoute
  dsimp only
  rw [if_neg (fun h => hss (List.isEmpty_iff.mp h)),
      if_neg (fun h => hes (List.isEmpty_iff.mp h))]
  unfold assembleResult
  rw [hempty]
  rfl

/-- Witness for `agg_noservice_shape`: the vehicle-less route with stops
near both endpoints produces the no-service error object. -/
theorem agg_noservice_shape_witness :
    (AggBusRouting.findBestRoute (havConst 100) 5 (some originPt) (some destPt)
      [noVehicleRoute]).reason = some "No buses running along your route" ∧
    (AggBusRouting.findBestRoute (havConst 100) 5 (some originPt) (some destPt)
      [noVehicleRoute]).directWalkTime = none := by
  have h := agg_noservice_shape (havConst 100) 5 originPt destPt [noVehicleRoute]
    (by intro h; norm_num [findNearbyStops, havConst, noVehicleRoute, List.filterMap_cons,
      List.flatMap_cons, List.flatMap_nil] at h; exact absurd h (List.cons_ne_nil _ _))
    (by intro h; norm_num [findNearbyStops, havConst, noVehicleRoute, List.filterMap_cons,
      List.flatMap_cons, List.flatMap_nil] at h; exact absurd h (List.cons_ne_nil _ _))
    (by norm_num [AggBusRouting.possibleTrips, AggBusRouting.tripFor, findNearbyStops,
      findNextBus, nextBusStep, havConst, noVehicleRoute, originPt, destPt, List.find?,
      List.filterMap_cons, List.flatMap_cons, List.flatMap_nil])
  rw [h]
  exact ⟨rfl, rfl⟩

/-- Erase the wall-clock ETA stamp of one candidate trip. -/
def clearETA (t : TripCand) : TripCand := { t with ETA := "" }

/-- Erase every wall-clock ETA stamp of a result. -/
def stripETA (r : BestRoute) : BestRoute :=
  { r with trip := r.trip.map clearETA,
           alternativeTrips := r.alternativeTrips.map clearETA }

/-- The comparator ignores the ETA stamp. -/
lemma tripLe_clearETA (a b : TripCand) :
    tripLe (clearETA a) (clearETA b) = tripLe a b := rfl

/-- Insertion commutes with erasing ETA stamps. -/
lemma insertTrip_map_clearETA (x : TripCand) (l : List TripCand) :
    insertTrip (clearETA x) (l.map clearETA) = (insertTrip x l).map clearETA := by
  induction l with
  | nil => rfl
  | cons y ys ih =>
    rw [List.map_cons, insertTrip, insertTrip, tripLe_clearETA]
    by_cases h : tripLe x y
    · rw [if_pos h, if_pos h, List.map_cons, List.map_cons]
    · rw [if_neg h, if_neg h, List.map_cons, ih]

/-- Sorting commutes with erasing ETA stamps. -/
lemma sortTrips_map_clearETA (l : List TripCand) :
    sortTrips (l.map clearETA) = (sortTrips l).map clearETA := by
  induction l with
  | nil => rfl
  | cons x xs ih =>
    show insertTrip (clearETA x) (sortTrips (xs.map clearETA)) = _
    rw [ih, insertTrip_map_clearETA]
    rfl

/-- The shared result-assembly step only depends on the candidate list up
to its ETA stamps. -/
lemma stripETA_assembleResult (dw : ℚ) (ss es : List NearbyStop)
    (l₁ l₂ : List TripCand) (h : l₁.map clearETA = l₂.map clearETA) :
    stripETA (assembleResult dw ss es l₁) = stripETA (assembleResult dw ss es l₂) := by
  have hlen : l₁.length = l₂.length := by
    have := congrArg List.length h
    simpa using this
  have hsort : (sortTrips l₁).map clearETA = (sortTrips l₂).map clearETA := by
    rw [← sortTrips_map_clearETA, ← sortTrips_map_clearETA, h]
  unfold assembleResult
  by_cases h1 : l₁.isEmpty
  · have h2 : l₂.isEmpty := by
      rw [List.isEmpty_iff] at h1 ⊢
      rw [h1] at hlen
      exact List.length_eq_zero.mp hlen.symm
    rw [if_pos h1, if_pos h2]
  · have h2 : ¬ l₂.isEmpty := by
      intro h2
      apply h1
      rw [List.isEmpty_iff] at h2 ⊢
      rw [h2] at hlen
      exact List.length_eq_zero.mp hlen
    rw [if_neg h1, if_neg h2]
    cases hs1 : sortTrips l₁ with
    | nil =>
      cases hs2 : sortTrips l₂ with
      | nil => rfl
      | cons b2 r2 =>
        rw [hs1, hs2] at hsort
        cases hsort
    | cons b1 r1 =>
      cases hs2 : sortTrips l₂ with
      | nil =>
        rw [hs1, hs2] at hsort
        cases hsort
      | cons b2 r2 =>
        rw [hs1, hs2] at hsort
        rw [List.map_cons, List.map_cons] at hsort
        injection hsort with hb hr
        have hb' := hb
        unfold clearETA at hb'
        injection hb' with f1 f2 f3 f4 f5 f6 f7 f8 f9 f10 f11 f12 f13 f14 f15 f16 f17
        unfold stripETA
        simp only [Option.map_some', List.map_take]
        rw [hb, hr, f1, f2, f3, f4, f5, f12, f13]

/-- The candidate built for one stop pair depends on the clock reading
only through its ETA stamp. -/
lemma backend_tripFor_clearETA (hav : DistFn) (now now' : ℚ) (d : Point)
    (route : Route) (ss es : NearbyStop) :
    (BackEnd.tripFor hav now d route ss es).map clearETA
      = (BackEnd.tripFor hav now' d route ss es).map clearETA := by
  unfold BackEnd.tripFor
  dsimp only
  by_cases hr : es.routeId ≠ ss.routeId
  · rw [if_pos hr, if_pos hr]
  · rw [if_neg hr, if_neg hr]
    by_cases hv : (!(isValidDirection route ss.stopId es.stopId).valid) = true
    · rw [if_pos hv, if_pos hv]
    · rw [if_neg hv, if_neg hv]
      cases findNextBus route ss.stopId ss.walkTimeMinutes with
      | none => rfl
      | some nextBus => rfl

/-- The candidate list depends on the clock reading only through ETA
stamps. -/
lemma backend_possibleTrips_clearETA (hav : DistFn) (now now' : ℚ) (d : Point)
    (routes : List Route) (ss es : List NearbyStop) :
    (BackEnd.possibleTrips hav now d routes ss es).map clearETA
      = (BackEnd.possibleTrips hav now' d routes ss es).map clearETA := by
  unfold BackEnd.possibleTrips
  rw [List.map_flatMap, List.map_flatMap]
  apply List.flatMap_congr
  intro startStop _
  cases routes.find? (fun r => r.id = startStop.routeId) with
  | none => rfl
  | some route =>
    dsimp only
    rw [List.map_filterMap, List.map_filterMap]
    apply List.filterMap_congr
    intro endStop _
    exact backend_tripFor_clearETA hav now now' d route startStop endStop

/-- Claim C9: `findBestRoute` is a pure function of the distance function,
the clock reading, the two endpoints, and the snapshot; the clock reading
(`Date.now()` inside `calculateETA`) influences nothing but the ETA
clock-stamp strings of the primary trip and the alternatives.  Two calls
on the identical snapshot and inputs therefore agree on every other
field. -/
theorem findBestRoute_clock_independent (hav : DistFn) (now now' : ℚ)
    (u d : Option Point) (routes : List Route) :
    stripETA (BackEnd.findBestRoute hav now u d routes)
      = stripETA (BackEnd.findBestRoute hav now' u d routes) := by
  cases u with
  | none => cases d <;> rfl
  | some up =>
    cases d with
    | none => rfl
    | some dp =>
      unfold BackEnd.findBestRoute
      dsimp only
      by_cases hss : (findNearbyStops hav up routes 400).isEmpty = true
      · rw [if_pos hss, if_pos hss]
      · rw [if_neg hss, if_neg hss]
        by_cases hes : (findNearbyStops hav dp routes 400).isEmpty = true
        · rw [if_pos hes, if_pos hes]
        · rw [if_neg hes, if_neg hes]
          exact stripETA_assembleResult _ _ _ _ _
            (backend_possibleTrips_clearETA hav now now' dp routes _ _)

/-- Candidate with a 12-minute total but a 3-minute walk to its start
stop (Scenario E fixture). -/
def fartherStartTrip : TripCand :=
  { routeId := "R", routeName := "Route", routeColor := "red",
    startStop := ⟨"s1", "Stop 1", 40, -83⟩, endStop := ⟨"s2", "Stop 2", 41, -83⟩,
    busId := "b1", busETA := 5, busCountdown := "", isDelayed := false,
    arrivalTime := "", walkToStopTime := 3, busWaitTime := 2, busTravelTime := 5,
    walkFromStopTime := 2, totalTime := 12, ETA := "", stopsBetween := 2 }

/-- Candidate arriving half a minute later overall but whose start stop
is much closer (1-minute walk). -/
def closerStartTrip : TripCand :=
  { routeId := "R", routeName := "Route", routeColor := "red",
    startStop := ⟨"s3", "Stop 3", 40, -83⟩, endStop := ⟨"s2", "Stop 2", 41, -83⟩,
    busId := "b2", busETA := 6, busCountdown := "", isDelayed := false,
    arrivalTime := "", walkToStopTime := 1, busWaitTime := 3, busTravelTime := 13 / 2,
    walkFromStopTime := 2, totalTime := 25 / 2, ETA := "", stopsBetween := 2 }

/-- Witness for `sortTrips_tiebreak_spec` (Scenario E): the totals differ
by half a minute, so the closer-start-stop candidate is ordered first and
becomes the returned primary trip, the other one the sole alternative. -/
theorem sortTrips_tiebreak_spec_witness :
    (assembleResult 0 [] [] [fartherStartTrip, closerStartTrip]).trip
      = some closerStartTrip ∧
    (assembleResult 0 [] [] [fartherStartTrip, closerStartTrip]).alternativeTrips
      = [fartherStartTrip] :=
  (sortTrips_tiebreak_spec fartherStartTrip closerStartTrip).2.2 0 [] []
    [fartherStartTrip, closerStartTrip] closerStartTrip [fartherStartTrip]
    (by norm_num [sortTrips, insertTrip, tripLe, tripCompare,
      fartherStartTrip, closerStartTrip, abs_le])
